import Mathlib

/-!
Verification of the training driver `semi_yolov5_STAC.py` (semi-supervised
YOLOv5 STAC trainer).  The Python source is shallowly embedded below: pure
fragments become Lean functions over `Int` / `Rat` / `List`, fallible
Python evaluation (TypeError, NameError, IndexError, AssertionError, ...)
becomes `Except PyErr`.  Machine floats of the original appear only as
exact rational arithmetic on the quantities the claims talk about.
-/

/-- The Python runtime errors that the embedded fragments can raise. -/
inductive PyErr where
  | typeError (msg : String)
  | nameError (missing : String)
  | indexError
  | assertionError (msg : String)
  | attributeError (msg : String)
  | valueError (msg : String)
deriving DecidableEq

/-- True exactly when an embedded evaluation aborted with an exception. -/
def fatalRun {α : Type} : Except PyErr α → Bool
  | .error _ => true
  | .ok _ => false

/-!
## Pseudo-Label Dataset Container (`class semiDataset`, lines 45-56)

The Python class stores the three constructor arguments verbatim and a
`size` attribute set to `None`; `__len__` is `len(self.imgs)` and
`__getitem__` indexes all three stored sequences and tacks on `size`.
-/

/-- Embedding of `class semiDataset(Dataset)` (lines 45-56): three stored
sequences plus the shared `size` attribute (`Option` models the value
`None` that `__init__` writes). -/
structure semiDataset (α β γ δ : Type) where
  imgs : List α
  target : List β
  path : List γ
  size : Option δ
deriving DecidableEq

/-- Embedding of `semiDataset.__init__` (lines 46-50): stores the three
sequences unchanged (no validation of any kind) and sets `size = None`. -/
def mkSemiDataset {α β γ δ : Type} (imgs : List α) (target : List β) (path : List γ) :
    semiDataset α β γ δ :=
  ⟨imgs, target, path, none⟩

/-- Embedding of `semiDataset.__len__` (lines 52-53): length of the image
sequence alone. -/
def semiDataset.len {α β γ δ : Type} (d : semiDataset α β γ δ) : Nat :=
  d.imgs.length

/-- Embedding of `semiDataset.__getitem__` (lines 55-56): in CPython the
three subscripts are evaluated left to right and an out-of-range subscript
raises IndexError; `none` models the raised error. -/
def semiDataset.getitem {α β γ δ : Type} (d : semiDataset α β γ δ) (index : Nat) :
    Option (α × β × γ × Option δ) :=
  (d.imgs.get? index).bind fun a =>
    (d.target.get? index).bind fun b =>
      (d.path.get? index).map fun c => (a, b, c, d.size)

/-!
## Setup phase: class-count and name resolution (lines 82-84)
-/

/-- Embedding of line 82: `nc = 1 if opt.single_cls else int(data_dict["nc"])`. -/
def resolveNC (single_cls : Bool) (descNC : Int) : Int :=
  if single_cls then 1 else descNC

/-- Embedding of line 83:
`names = ["item"] if opt.single_cls and len(data_dict["names"]) != 1 else data_dict["names"]`. -/
def resolveNames (single_cls : Bool) (descNames : List String) : List String :=
  if single_cls && (descNames.length != 1) then ["item"] else descNames

/-- The assert message of line 84:
`"%g names found for nc=%g dataset in %s" % (len(names), nc, opt.data)`. -/
def ncMismatchMsg (nNames : Nat) (nc : Int) (dataPath : String) : String :=
  toString nNames ++ " names found for nc=" ++ toString nc ++ " dataset in " ++ dataPath

/-- Embedding of lines 82-84: resolve the effective class count and name
list, then `assert len(names) == nc` with the diagnostic of line 84. -/
def configureClasses (single_cls : Bool) (descNC : Int) (descNames : List String)
    (dataPath : String) : Except PyErr (Int × List String) :=
  let nc := resolveNC single_cls descNC
  let names := resolveNames single_cls descNames
  if (names.length : Int) = nc then .ok (nc, names)
  else .error (.assertionError (ncMismatchMsg names.length nc dataPath))

/-!
## Dataset-level validation (lines 199-203)
-/

/-- One row of a per-image label array in yolo format
`[class, x, y, w, h]` (the code only reads column 0). -/
structure LabelRow where
  cls : Rat
  x : Rat
  y : Rat
  bw : Rat
  bh : Rat
deriving DecidableEq

/-- Numpy `.max()` over a 1-d array: `none` models the ValueError that
numpy raises on an empty reduction. -/
def npMax : List Rat → Option Rat
  | [] => none
  | a :: l =>
    match npMax l with
    | none => some a
    | some m => some (max a m)

/-- Embedding of line 199: `mlc = np.concatenate(dataset.labels, 0)[:, 0].max()`. -/
def maxLabelClass (labels : List (List LabelRow)) : Option Rat :=
  npMax ((labels.flatten).map LabelRow.cls)

/-- The assert message of line 203:
`"Label class %g exceeds nc=%g in %s. Possible class labels are 0-%g" % (mlc, nc, opt.data, nc-1)`. -/
def labelRangeMsg (mlc : Rat) (nc : Int) (dataPath : String) : String :=
  "Label class " ++ toString mlc ++ " exceeds nc=" ++ toString nc ++ " in " ++ dataPath
    ++ ". Possible class labels are 0-" ++ toString (nc - 1)

/-- Embedding of lines 199 and 203: compute the maximum label class of the
training set and `assert mlc < nc` with the diagnostic of line 203. -/
def datasetClassCheck (labels : List (List LabelRow)) (nc : Int) (dataPath : String) :
    Except PyErr Rat :=
  match maxLabelClass labels with
  | none => .error (.valueError "zero-size array to reduction operation maximum")
  | some mlc =>
    if mlc < (nc : Rat) then .ok mlc
    else .error (.assertionError (labelRangeMsg mlc nc dataPath))

/-!
## Resume handling (lines 144-168)

Line 165 reads
`assert start_epoch > 0, "%s training to %g epochs is finished, nothing to resume." % (weight, epochs)`.
CPython evaluates the message expression only when the condition is false,
and the name `weight` is bound nowhere in `train` (the local is `weights`),
so the failing branch raises NameError rather than AssertionError.
-/

/-- The local names bound in `train` up to line 165 (from the source:
function parameters, the unpacking on lines 60-62, and the assignments of
lines 64-163). The name `weight` used by the assert message of line 165 is
not among them; the bound local is `weights`. -/
def trainLocals : List String :=
  ["hyp", "opt", "device", "save_dir", "epochs", "batch_size", "total_batch_size",
   "weights", "rank", "do_semi", "wdir", "last", "best", "results_file", "plots",
   "cuda", "f", "data_dict", "nc", "names", "pretrained", "ckpt", "model",
   "exclude", "state_dict", "train_path", "test_path", "nbs", "accumulate",
   "k", "v", "optimizer", "lf", "scheduler", "ema", "start_epoch", "best_fitness"]

/-- CPython name resolution for the embedded fragment: looking up a name
that is not bound raises NameError. -/
def lookupLocal (env : List String) (n : String) : Except PyErr Unit :=
  if env.contains n then .ok () else .error (.nameError n)

/-- Evaluation of the assert message of line 165, which reads the names
`weight` and `epochs` to format the string. -/
def resumeAssertMsg : Except PyErr String := do
  let _ ← lookupLocal trainLocals "weight"
  let _ ← lookupLocal trainLocals "epochs"
  .ok "training to given epochs is finished, nothing to resume."

/-- Embedding of lines 163-167: `start_epoch = ckpt["epoch"] + 1`, the
resume assert of line 165 (message evaluated only on failure), and the
budget extension `if epochs < start_epoch: epochs += ckpt["epoch"]`.
The result is the pair `(start_epoch, epochs)` after this block. -/
def resumeEpochs (resumeFlag : Bool) (ckptEpoch : Int) (epochs : Int) :
    Except PyErr (Int × Int) :=
  let start_epoch := ckptEpoch + 1
  if resumeFlag = true ∧ ¬ (0 < start_epoch) then
    match resumeAssertMsg with
    | .error e => .error e
    | .ok msg => .error (.assertionError msg)
  else
    .ok (start_epoch, if epochs < start_epoch then epochs + ckptEpoch else epochs)

/-!
## Burn-in epoch range (lines 248 and 251)

Line 248: `burnin_epochs = epochs / 2` — Python 3 true division, which
produces a float even for even `epochs`.  Line 251:
`for epoch in range(start_epoch, burnin_epochs)` — `range` accepts only
integers and raises TypeError on a float bound.
-/

/-- A Python numeric value: an int or a float (floats modelled exactly). -/
inductive PyVal where
  | intVal (n : Int)
  | floatVal (q : Rat)
deriving DecidableEq

/-- Python 3 `/` on two ints: true division, always a float. -/
def pyTrueDiv (a b : Int) : PyVal :=
  .floatVal ((a : Rat) / (b : Rat))

/-- The integer list `[lo, lo+1, ..., hi-1]` that `range(lo, hi)` yields. -/
def intRange (lo hi : Int) : List Int :=
  (List.range (hi - lo).toNat).map (fun k => lo + k)

/-- Python `range(lo, hi)`: a float bound raises TypeError. -/
def pyRange (lo : Int) : PyVal → Except PyErr (List Int)
  | .intVal hi => .ok (intRange lo hi)
  | .floatVal _ => .error (.typeError "float object cannot be interpreted as an integer")

/-- Embedding of lines 248 and 251: the epoch indices the burn-in loop
iterates over, namely `range(start_epoch, epochs / 2)`. -/
def burninEpochIndices (start_epoch epochs : Int) : Except PyErr (List Int) :=
  pyRange start_epoch (pyTrueDiv epochs 2)

/-!
## Optimizer parameter groups (lines 114-131)

The loop over `model.named_modules()` sorts parameters into three lists:
```
if hasattr(v, "bias") and isinstance(v.bias, nn.Parameter): pg2.append(v.bias)
if isinstance(v, nn.BatchNorm2d): pg0.append(v.weight)
elif hasattr(v, "weight") and isinstance(v.weight, nn.Parameter): pg1.append(v.weight)
```
A module is embedded through the attribute view this loop takes of it: an
optional `weight` attribute, an optional `bias` attribute (`none` covers
both a missing attribute and the value `None`, neither of which is an
`nn.Parameter`), and whether the module is a `BatchNorm2d`.  A tensor
carries an identity and whether it is an `nn.Parameter`.  For the detector
models this driver constructs, the trainable parameters are exactly the
Parameter-valued `weight` and `bias` attributes of the iterated modules
(convolution and batch-norm layers; container modules expose none).
-/

/-- A tensor attribute of a module: identity plus whether
`isinstance(., nn.Parameter)` holds. -/
structure PTensor where
  id : Nat
  isParam : Bool
deriving DecidableEq

/-- A module as seen by the partition loop of lines 115-121. -/
structure PModule where
  weight : Option PTensor
  bias : Option PTensor
  isBatchNorm2d : Bool
deriving DecidableEq

/-- `isinstance(attr, nn.Parameter)` for an optional attribute. -/
def isParamOpt : Option PTensor → Bool
  | some t => t.isParam
  | none => false

/-- One iteration of the loop body of lines 115-121 on accumulated groups
`(pg0, pg1, pg2)`.  Note the BatchNorm2d branch appends `v.weight` without
an `isinstance` check, so `pg0` holds optional tensors. -/
def modStep (acc : List (Option PTensor) × List PTensor × List PTensor) (v : PModule) :
    List (Option PTensor) × List PTensor × List PTensor :=
  let pg2 :=
    match v.bias with
    | some b => if b.isParam then acc.2.2 ++ [b] else acc.2.2
    | none => acc.2.2
  let pg01 :=
    if v.isBatchNorm2d then (acc.1 ++ [v.weight], acc.2.1)
    else
      match v.weight with
      | some w => if w.isParam then (acc.1, acc.2.1 ++ [w]) else (acc.1, acc.2.1)
      | none => (acc.1, acc.2.1)
  (pg01.1, pg01.2, pg2)

/-- Embedding of lines 114-121: the three optimizer parameter groups
`(pg0, pg1, pg2)` built by folding the loop body over the module list. -/
def paramGroups (m : List PModule) : List (Option PTensor) × List PTensor × List PTensor :=
  m.foldl modStep ([], [], [])

/-- The `pg0` contribution of a single module: its `weight` attribute when
it is a BatchNorm2d. -/
def bnW1 (v : PModule) : List (Option PTensor) :=
  if v.isBatchNorm2d then [v.weight] else []

/-- The `pg1` contribution of a single module: its Parameter-valued
`weight` when it is not a BatchNorm2d. -/
def otherW1 (v : PModule) : List PTensor :=
  if v.isBatchNorm2d then []
  else
    match v.weight with
    | some w => if w.isParam then [w] else []
    | none => []

/-- The `pg2` contribution of a single module: its Parameter-valued `bias`. -/
def biasP1 (v : PModule) : List PTensor :=
  match v.bias with
  | some b => if b.isParam then [b] else []
  | none => []

/-- All BatchNorm2d `weight` attributes, in module order. -/
def bnWeights (m : List PModule) : List (Option PTensor) :=
  (m.map bnW1).flatten

/-- All non-BatchNorm2d Parameter-valued `weight` attributes, in module order. -/
def otherWeights (m : List PModule) : List PTensor :=
  (m.map otherW1).flatten

/-- All Parameter-valued `bias` attributes, in module order. -/
def biasParams (m : List PModule) : List PTensor :=
  (m.map biasP1).flatten

/-- The Parameter-valued `weight` attribute of a single module, if any. -/
def wParams1 (v : PModule) : List PTensor :=
  match v.weight with
  | some w => if w.isParam then [w] else []
  | none => []

/-- The trainable parameters of the embedded model: every Parameter-valued
`weight` or `bias` attribute of its modules, in module order. -/
def modelParams (m : List PModule) : List PTensor :=
  (m.map (fun v => wParams1 v ++ biasP1 v)).flatten

/-!
## Warmup block (lines 266-274)

Line 267 reads `if ni <= [0, nw]:` — in Python 3 the comparison of an
`int` with a `list` raises TypeError, so the block aborts before any
learning rate is touched.  (The dead interior also carries
`[1, nbs / total_batch_size].round()` on line 269, an AttributeError,
since Python lists have no `round` method.)
-/

/-- One optimizer parameter group as the warmup loop sees it: the live
learning rate, the scheduler-installed `initial_lr`, and the optional
`momentum` entry (`"momentum" in x`). -/
structure ParamGroup where
  lr : Rat
  initial_lr : Rat
  momentum : Option Rat
deriving DecidableEq

/-- The hyperparameters the warmup block reads. -/
structure WarmupHyp where
  warmup_bias_lr : Rat
  warmup_momentum : Rat
  momentum : Rat
deriving DecidableEq

/-- `np.interp` for a two-point table `(a, ya)`, `(b, yb)` (numpy clamps
outside the table). -/
def npInterp (x a b ya yb : Rat) : Rat :=
  if x ≤ a then ya
  else if b ≤ x then yb
  else ya + (x - a) * (yb - ya) / (b - a)

/-- Python 3 `int <= list` (line 267): unconditionally a TypeError. -/
def pyLeIntList (_n : Int) (_l : List Int) : Except PyErr Bool :=
  .error (.typeError "le not supported between instances of int and list")

/-- Python `list.round()` (line 269): lists have no such attribute. -/
def pyListRound (_l : List Rat) : Except PyErr (List Rat) :=
  .error (.attributeError "list object has no attribute round")

/-- The per-group update of lines 270-274, as written (only reachable if
the guard of line 267 succeeded). -/
def warmupGroupUpdate (hy : WarmupHyp) (lfE : Rat) (ni nw : Int) (j : Nat)
    (x : ParamGroup) : ParamGroup :=
  { x with
    lr := npInterp (ni : Rat) 0 (nw : Rat)
            (if j = 2 then hy.warmup_bias_lr else 0) (x.initial_lr * lfE),
    momentum := x.momentum.map fun _ =>
      npInterp (ni : Rat) 0 (nw : Rat) hy.warmup_momentum hy.momentum }

/-- Embedding of the warmup block, lines 266-274: evaluate the guard
`ni <= [0, nw]`, and on success recompute `accumulate` (line 269) and
update every parameter group (lines 270-274); otherwise leave everything
unchanged. -/
def warmupBlock (hy : WarmupHyp) (lfE : Rat) (nbs tbs : Rat) (ni nw : Int)
    (accumulate : Rat) (groups : List ParamGroup) :
    Except PyErr (Rat × List ParamGroup) := do
  let cond ← pyLeIntList ni [0, nw]
  if cond then do
    let r ← pyListRound [1, nbs / tbs]
    let acc := max 1 (npInterp (ni : Rat) 0 (nw : Rat) (r.headD 1) (r.getLastD 1))
    .ok (acc, (groups.enum.map fun p => warmupGroupUpdate hy lfE ni nw p.1 p.2))
  else .ok (accumulate, groups)

/-!
## Pseudo-labeling pass (lines 350-376)

Per unlabeled batch the code runs inference, suppression
(`non_max_suppression`, external), and for each surviving non-empty
per-image detection set builds the record rows
`torch.cat((zeros, Class, XYWH), dim=1)` where `Class = pre[:, 5]`,
`XYWH = xyxy2xywh(pre[:, :4]) / gn` and
`gn = torch.tensor(imgs0.shape)[[3, 2, 3, 2]] = [W, H, W, H]`, the width
and height of the stacked batch tensor (which every image of the batch
shares).  The three accumulated sequences finally become a `semiDataset`.
-/

/-- One suppressed detection: a row of the `non_max_suppression` output,
in corner form with appended confidence and class columns
`[x1, y1, x2, y2, conf, cls]`. -/
structure Det where
  x1 : Rat
  y1 : Rat
  x2 : Rat
  y2 : Rat
  conf : Rat
  cls : Rat
deriving DecidableEq

/-- The external `utils.general.xyxy2xywh` box conversion: corner form to
center-size form `(cx, cy, w, h)`. -/
def xyxy2xywh (d : Det) : Rat × Rat × Rat × Rat :=
  ((d.x1 + d.x2) / 2, (d.y1 + d.y2) / 2, d.x2 - d.x1, d.y2 - d.y1)

/-- One record row of lines 368-371: placeholder 0, then `pre[:, 5]`, then
`xyxy2xywh(pre[:, :4])` divided by `gn = [W, H, W, H]`. -/
def pseudoRow (W H : Rat) (d : Det) : List Rat :=
  let c := xyxy2xywh d
  [0, d.cls, c.1 / W, c.2.1 / H, c.2.2.1 / W, c.2.2.2 / H]

/-- One image of an unlabeled batch: its own height and width (slicing the
stacked batch tensor yields a `(C, H, W)` tensor, so these equal the batch
shape) plus an opaque content identity. -/
structure UImg where
  h : Rat
  w : Rat
  pix : Nat
deriving DecidableEq

/-- One batch drawn from the unlabeled loader, after suppression: the
stacked tensor shape `(bh, bw)`, the images, their source paths, and the
per-image suppressed detection sets returned by `non_max_suppression`. -/
structure Batch where
  bh : Rat
  bw : Rat
  imgs : List UImg
  paths : List String
  preds : List (List Det)
deriving DecidableEq

/-- Python subscript `l[i]` on a sequence: IndexError when out of range. -/
def pyIndex {α : Type} (l : List α) (i : Nat) : Except PyErr α :=
  match l.get? i with
  | some a => .ok a
  | none => .error .indexError

/-- Embedding of the inner loop of lines 364-374 over
`enumerate(pred)`: skip empty detection sets (`continue`), otherwise build
the record rows and append `imgs0[index]`, the rows, and `path[index]` as
one entry of the three parallel collections. -/
def collectBatch (W H : Rat) (imgs : List UImg) (paths : List String) :
    Nat → List (List Det) → Except PyErr (List (UImg × List (List Rat) × String))
  | _, [] => .ok []
  | i, pre :: rest =>
    if pre.length = 0 then collectBatch W H imgs paths (i + 1) rest
    else
      match pyIndex imgs i with
      | .error e => .error e
      | .ok im =>
        match pyIndex paths i with
        | .error e => .error e
        | .ok p =>
          match collectBatch W H imgs paths (i + 1) rest with
          | .error e => .error e
          | .ok tail => .ok ((im, pre.map (pseudoRow W H), p) :: tail)

/-- The entries one batch contributes (lines 361-374), with
`gn = [W, H, W, H]` taken from the stacked batch shape. -/
def processBatch (b : Batch) : Except PyErr (List (UImg × List (List Rat) × String)) :=
  collectBatch b.bw b.bh b.imgs b.paths 0 b.preds

/-- The entries of the whole pass over the unlabeled loader (line 355). -/
def collectAll : List Batch → Except PyErr (List (UImg × List (List Rat) × String))
  | [] => .ok []
  | b :: rest =>
    match processBatch b with
    | .error e => .error e
    | .ok entries =>
      match collectAll rest with
      | .error e => .error e
      | .ok tail => .ok (entries ++ tail)

/-- Embedding of lines 350-376: run the pass over every unlabeled batch
and package the three parallel collections into
`semiDataset(img, target, Path)` (line 376). -/
def pseudoLabelPass (batches : List Batch) :
    Except PyErr (semiDataset UImg (List (List Rat)) String Unit) :=
  match collectAll batches with
  | .error e => .error e
  | .ok entries =>
    .ok (mkSemiDataset (entries.map (fun e => e.1)) (entries.map (fun e => e.2.1))
          (entries.map (fun e => e.2.2)))

/-!
## Theorems
-/

/-- C2: the claim says the burn-in loop iterates exactly over the epoch
indices from `start_epoch` up to `epochs/2` with the integer budget
halved.  On the code as written this is false for every input:
`burnin_epochs = epochs / 2` (line 248) is Python 3 true division and
yields a float, and `range(start_epoch, burnin_epochs)` (line 251) raises
TypeError on a float bound, so the loop never yields any epoch index. -/
theorem burnin_range_always_type_error (start_epoch epochs : Int) :
    burninEpochIndices start_epoch epochs =
      .error (.typeError "float object cannot be interpreted as an integer") := rfl

/-- C3: the claim says the warmup block linearly interpolates each
parameter-group learning rate and the momentum over the iteration count.
On the code as written this is false for every input: the guard of line
267 is `if ni <= [0, nw]:`, and Python 3 raises TypeError when comparing
an int with a list, so the block aborts before touching any group. -/
theorem warmup_guard_always_type_error (hy : WarmupHyp) (lfE nbs tbs : Rat)
    (ni nw : Int) (accumulate : Rat) (groups : List ParamGroup) :
    warmupBlock hy lfE nbs tbs ni nw accumulate groups =
      .error (.typeError "le not supported between instances of int and list") := rfl

/-- C6: evaluation of the resume block at a failing input.  With
`opt.resume` set and a checkpoint recording epoch `-1` (so the computed
`start_epoch` is 0), the run is indeed fatal, but the abort is a NameError
on the unbound name `weight` raised while formatting the assert message of
line 165 (the bound local is `weights`), not the documented diagnostic
naming the weights source and the target epoch count. -/
theorem resume_assert_message_name_error :
    resumeEpochs true (-1) 300 = .error (.nameError "weight") := rfl

/-- C4: during setup the resolved class count is 1 in single-class mode
and otherwise the descriptor count; the resolved name list is
`["item"]` exactly when single-class mode is requested and the descriptor
list does not have exactly one entry, and otherwise the descriptor list;
and the run aborts, with the diagnostic of line 84 naming both counts,
exactly when the resolved name count differs from the resolved count. -/
theorem setup_class_resolution (single_cls : Bool) (descNC : Int)
    (descNames : List String) (dataPath : String) :
    (single_cls = true → resolveNC single_cls descNC = 1)
    ∧ (single_cls = false → resolveNC single_cls descNC = descNC)
    ∧ (single_cls = true → descNames.length ≠ 1 →
        resolveNames single_cls descNames = ["item"])
    ∧ ((single_cls = false ∨ descNames.length = 1) →
        resolveNames single_cls descNames = descNames)
    ∧ (∀ r, configureClasses single_cls descNC descNames dataPath = .ok r →
        r = (resolveNC single_cls descNC, resolveNames single_cls descNames))
    ∧ (fatalRun (configureClasses single_cls descNC descNames dataPath) = true ↔
        ((resolveNames single_cls descNames).length : Int) ≠ resolveNC single_cls descNC)
    ∧ (((resolveNames single_cls descNames).length : Int) ≠ resolveNC single_cls descNC →
        configureClasses single_cls descNC descNames dataPath =
          .error (.assertionError (ncMismatchMsg (resolveNames single_cls descNames).length
            (resolveNC single_cls descNC) dataPath))) := by
  refine ⟨fun h => by simp [resolveNC, h], fun h => by simp [resolveNC, h],
    fun h h2 => by simp [resolveNames, h, h2], fun h => ?_, fun r hr => ?_, ?_, fun h => ?_⟩
  · rcases h with h | h <;> simp [resolveNames, h]
  · by_cases hc : ((resolveNames single_cls descNames).length : Int) = resolveNC single_cls descNC
    · have he : configureClasses single_cls descNC descNames dataPath =
          .ok (resolveNC single_cls descNC, resolveNames single_cls descNames) := by
        simp [configureClasses, hc]
      rw [he] at hr
      cases hr
      rfl
    · simp [configureClasses, hc] at hr
  · by_cases hc : ((resolveNames single_cls descNames).length : Int) = resolveNC single_cls descNC
    · simp [configureClasses, hc, fatalRun]
    · simp [configureClasses, hc, fatalRun]
  · simp [configureClasses, h]

/-- C4 witness: the theorem at `single_cls = true`, a descriptor carrying
`nc = 3` and two names, and data path `arm.yaml`. -/
theorem setup_class_resolution_witness :
    (true = true → resolveNC true 3 = 1)
    ∧ (true = false → resolveNC true 3 = 3)
    ∧ (true = true → (["a", "b"] : List String).length ≠ 1 →
        resolveNames true ["a", "b"] = ["item"])
    ∧ ((true = false ∨ (["a", "b"] : List String).length = 1) →
        resolveNames true ["a", "b"] = ["a", "b"])
    ∧ (∀ r, configureClasses true 3 ["a", "b"] "arm.yaml" = .ok r →
        r = (resolveNC true 3, resolveNames true ["a", "b"]))
    ∧ (fatalRun (configureClasses true 3 ["a", "b"] "arm.yaml") = true ↔
        ((resolveNames true ["a", "b"]).length : Int) ≠ resolveNC true 3)
    ∧ (((resolveNames true ["a", "b"]).length : Int) ≠ resolveNC true 3 →
        configureClasses true 3 ["a", "b"] "arm.yaml" =
          .error (.assertionError (ncMismatchMsg (resolveNames true ["a", "b"]).length
            (resolveNC true 3) "arm.yaml"))) :=
  setup_class_resolution true 3 ["a", "b"] "arm.yaml"

/-- C5: the dataset-level validation computes the maximum label-class
index of the training set and is fatal exactly when that index meets or
exceeds the resolved class count; a maximum index equal to `nc` fails with
the diagnostic of line 203 naming the offending index and the range
`0..nc-1`, while a maximum index of `nc - 1` passes. -/
theorem label_range_check (labels : List (List LabelRow)) (nc : Int)
    (dataPath : String) (mlc : Rat) (hm : maxLabelClass labels = some mlc) :
    (fatalRun (datasetClassCheck labels nc dataPath) = true ↔ (nc : Rat) ≤ mlc)
    ∧ (mlc = (nc : Rat) →
        datasetClassCheck labels nc dataPath =
          .error (.assertionError (labelRangeMsg mlc nc dataPath)))
    ∧ (mlc = (nc : Rat) - 1 → datasetClassCheck labels nc dataPath = .ok mlc) := by
  have hd : datasetClassCheck labels nc dataPath =
      if mlc < (nc : Rat) then .ok mlc
      else .error (.assertionError (labelRangeMsg mlc nc dataPath)) := by
    unfold datasetClassCheck
    rw [hm]
  rw [hd]
  refine ⟨?_, fun he => ?_, fun he => ?_⟩
  · by_cases h : mlc < (nc : Rat)
    · simp [fatalRun, h, not_le.mpr h]
    · simp [fatalRun, h, not_lt.mp h]
  · rw [if_neg (by rw [he]; exact lt_irrefl _)]
  · rw [if_pos (by rw [he]; exact sub_one_lt _)]

/-- C5 witness: one training image whose single label row has class 2,
checked against `nc = 3` (so the maximum index is `nc - 1` and the check
passes). -/
theorem label_range_check_witness :
    maxLabelClass [[⟨2, 0, 0, 1, 1⟩]] = some 2
    ∧ ((fatalRun (datasetClassCheck [[⟨2, 0, 0, 1, 1⟩]] 3 "arm.yaml") = true ↔
          ((3 : Int) : Rat) ≤ 2)
        ∧ ((2 : Rat) = ((3 : Int) : Rat) →
            datasetClassCheck [[⟨2, 0, 0, 1, 1⟩]] 3 "arm.yaml" =
              .error (.assertionError (labelRangeMsg 2 3 "arm.yaml")))
        ∧ ((2 : Rat) = ((3 : Int) : Rat) - 1 →
            datasetClassCheck [[⟨2, 0, 0, 1, 1⟩]] 3 "arm.yaml" = .ok 2)) :=
  ⟨rfl, label_range_check [[⟨2, 0, 0, 1, 1⟩]] 3 "arm.yaml" 2 rfl⟩

/-- C8: a container built from equal-length sequences has length equal to
the number of images supplied; indexed access at an in-range position
returns the 4-tuple of the image, label-record set and path originally
supplied at that position plus the shared size field, which is initialized
to no value; and access at an index beyond the length fails. -/
theorem container_length_and_getitem {α β γ δ : Type} (imgs : List α) (tgt : List β)
    (pth : List γ) (h1 : tgt.length = imgs.length) (h2 : pth.length = imgs.length) :
    (mkSemiDataset imgs tgt pth : semiDataset α β γ δ).len = imgs.length
    ∧ (∀ i (hi : i < imgs.length),
        (mkSemiDataset imgs tgt pth : semiDataset α β γ δ).getitem i =
          some (imgs.get ⟨i, hi⟩, tgt.get ⟨i, lt_of_lt_of_eq hi h1.symm⟩,
            pth.get ⟨i, lt_of_lt_of_eq hi h2.symm⟩, none))
    ∧ (∀ i, imgs.length ≤ i →
        (mkSemiDataset imgs tgt pth : semiDataset α β γ δ).getitem i = none) := by
  refine ⟨rfl, fun i hi => ?_, fun i hi => ?_⟩
  · simp [mkSemiDataset, semiDataset.getitem, List.getElem?_eq_getElem hi,
      List.getElem?_eq_getElem (lt_of_lt_of_eq hi h1.symm),
      List.getElem?_eq_getElem (lt_of_lt_of_eq hi h2.symm)]
  · simp [mkSemiDataset, semiDataset.getitem, List.getElem?_eq_none hi]

/-- C8 witness: the theorem at two images, two label sets and two paths,
with the access at position 1 and at position 2 evaluated. -/
theorem container_length_and_getitem_witness :
    ([[5], [7]] : List (List Nat)).length = ([10, 20] : List Nat).length
    ∧ (["a", "b"] : List String).length = ([10, 20] : List Nat).length
    ∧ (mkSemiDataset [10, 20] [[5], [7]] ["a", "b"] :
        semiDataset Nat (List Nat) String Nat).len = 2
    ∧ (mkSemiDataset [10, 20] [[5], [7]] ["a", "b"] :
        semiDataset Nat (List Nat) String Nat).getitem 1 = some (20, [7], "b", none)
    ∧ (mkSemiDataset [10, 20] [[5], [7]] ["a", "b"] :
        semiDataset Nat (List Nat) String Nat).getitem 2 = none := by
  have h := container_length_and_getitem (δ := Nat) ([10, 20] : List Nat)
    ([[5], [7]] : List (List Nat)) (["a", "b"] : List String) rfl rfl
  exact ⟨rfl, rfl, h.1, by simpa using h.2.1 1 (by decide), h.2.2 2 (by decide)⟩

/-- C9: constructing the container from three sequences of unequal lengths
succeeds and stores them verbatim; the length query is determined by the
image sequence alone; and indexed access at a position valid for the image
sequence but beyond the label-record or path sequence fails rather than
returning a 4-tuple. -/
theorem container_unequal_sequences {α β γ δ : Type} (imgs : List α) (tgt : List β)
    (pth : List γ) (i : Nat) (hi : i < imgs.length)
    (hbeyond : tgt.length ≤ i ∨ pth.length ≤ i) :
    ((mkSemiDataset imgs tgt pth : semiDataset α β γ δ).imgs = imgs
      ∧ (mkSemiDataset imgs tgt pth : semiDataset α β γ δ).target = tgt
      ∧ (mkSemiDataset imgs tgt pth : semiDataset α β γ δ).path = pth
      ∧ (mkSemiDataset imgs tgt pth : semiDataset α β γ δ).size = none)
    ∧ (mkSemiDataset imgs tgt pth : semiDataset α β γ δ).len = imgs.length
    ∧ (mkSemiDataset imgs tgt pth : semiDataset α β γ δ).getitem i = none := by
  refine ⟨⟨rfl, rfl, rfl, rfl⟩, rfl, ?_⟩
  rcases hbeyond with h | h
  · cases ha : imgs[i]? <;>
      simp [mkSemiDataset, semiDataset.getitem, ha, List.getElem?_eq_none h]
  · cases ha : imgs[i]? <;> cases hb : tgt[i]? <;>
      simp [mkSemiDataset, semiDataset.getitem, ha, hb, List.getElem?_eq_none h]

/-- C9 witness: three images, one label set, two paths; index 2 is valid
for the image sequence but beyond both the label and the path sequence. -/
theorem container_unequal_sequences_witness :
    (2 : Nat) < ([10, 20, 30] : List Nat).length
    ∧ (([[5]] : List (List Nat)).length ≤ 2 ∨ (["a", "b"] : List String).length ≤ 2)
    ∧ (mkSemiDataset [10, 20, 30] [[5]] ["a", "b"] :
        semiDataset Nat (List Nat) String Nat).len = 3
    ∧ (mkSemiDataset [10, 20, 30] [[5]] ["a", "b"] :
        semiDataset Nat (List Nat) String Nat).getitem 2 = none := by
  have h := container_unequal_sequences (δ := Nat) ([10, 20, 30] : List Nat)
    ([[5]] : List (List Nat)) (["a", "b"] : List String) 2 (by decide) (Or.inl (by decide))
  exact ⟨by decide, Or.inl (by decide), h.2.1, h.2.2⟩

/-- Every entry produced by the per-batch loop comes from a non-empty
suppressed detection set of the batch: its rows are exactly that set
mapped through the record builder with the batch shape, and its image is
one of the batch images. -/
theorem collectBatch_ok_mem (W H : Rat) (imgs : List UImg) (paths : List String)
    (pres : List (List Det)) (i : Nat) (out : List (UImg × List (List Rat) × String))
    (hok : collectBatch W H imgs paths i pres = .ok out) :
    ∀ e ∈ out, ∃ pre ∈ pres, pre ≠ [] ∧ e.2.1 = pre.map (pseudoRow W H) ∧ e.1 ∈ imgs := by
  induction pres generalizing i out with
  | nil =>
    simp only [collectBatch] at hok
    cases hok
    simp
  | cons pre rest ih =>
    simp only [collectBatch] at hok
    split at hok
    · intro e he
      obtain ⟨pre', hp', h1, h2, h3⟩ := ih (i + 1) out hok e he
      exact ⟨pre', List.mem_cons_of_mem _ hp', h1, h2, h3⟩
    · case _ hne =>
      cases him : pyIndex imgs i with
      | error e0 => rw [him] at hok; cases hok
      | ok im =>
        rw [him] at hok
        cases hp : pyIndex paths i with
        | error e0 => rw [hp] at hok; cases hok
        | ok p =>
          rw [hp] at hok
          cases ht : collectBatch W H imgs paths (i + 1) rest with
          | error e0 => rw [ht] at hok; cases hok
          | ok tail =>
            rw [ht] at hok
            cases hok
            intro e he
            rcases List.mem_cons.mp he with he | he
            · subst he
              refine ⟨pre, List.mem_cons_self _ _, fun h0 => hne (by simp [h0]), rfl, ?_⟩
              unfold pyIndex at him
              cases hg : imgs.get? i with
              | none => rw [hg] at him; cases him
              | some a => rw [hg] at him; cases him; exact List.get?_mem hg
            · obtain ⟨pre', hp', h1, h2, h3⟩ := ih (i + 1) tail ht e he
              exact ⟨pre', List.mem_cons_of_mem _ hp', h1, h2, h3⟩

/-- The per-batch loop produces exactly one entry per non-empty suppressed
detection set. -/
theorem collectBatch_ok_length (W H : Rat) (imgs : List UImg) (paths : List String)
    (pres : List (List Det)) (i : Nat) (out : List (UImg × List (List Rat) × String))
    (hok : collectBatch W H imgs paths i pres = .ok out) :
    out.length = (pres.filter (fun pre => !(pre.length == 0))).length := by
  induction pres generalizing i out with
  | nil =>
    simp only [collectBatch] at hok
    cases hok
    simp
  | cons pre rest ih =>
    simp only [collectBatch] at hok
    split at hok
    · case _ h0 =>
      rw [ih (i + 1) out hok]
      simp [List.filter_cons, h0]
    · case _ h0 =>
      cases him : pyIndex imgs i with
      | error e0 => rw [him] at hok; cases hok
      | ok im =>
        rw [him] at hok
        cases hp : pyIndex paths i with
        | error e0 => rw [hp] at hok; cases hok
        | ok p =>
          rw [hp] at hok
          cases ht : collectBatch W H imgs paths (i + 1) rest with
          | error e0 => rw [ht] at hok; cases hok
          | ok tail =>
            rw [ht] at hok
            cases hok
            simp [List.filter_cons, h0, ih (i + 1) tail ht]

/-- Every entry of the whole pass comes from a non-empty suppressed
detection set of one of the batches, with rows built from that batch
shape and the image drawn from that batch. -/
theorem collectAll_ok_mem (batches : List Batch)
    (out : List (UImg × List (List Rat) × String)) (hok : collectAll batches = .ok out) :
    ∀ e ∈ out, ∃ b ∈ batches, ∃ pre ∈ b.preds, pre ≠ [] ∧
      e.2.1 = pre.map (pseudoRow b.bw b.bh) ∧ e.1 ∈ b.imgs := by
  induction batches generalizing out with
  | nil =>
    simp only [collectAll] at hok
    cases hok
    simp
  | cons b rest ih =>
    simp only [collectAll] at hok
    cases hb : processBatch b with
    | error e0 => rw [hb] at hok; cases hok
    | ok entries =>
      rw [hb] at hok
      cases ht : collectAll rest with
      | error e0 => rw [ht] at hok; cases hok
      | ok tail =>
        rw [ht] at hok
        cases hok
        intro e he
        rcases List.mem_append.mp he with he | he
        · unfold processBatch at hb
          obtain ⟨pre, hpre, h1, h2, h3⟩ := collectBatch_ok_mem _ _ _ _ _ _ _ hb e he
          exact ⟨b, List.mem_cons_self _ _, pre, hpre, h1, h2, h3⟩
        · obtain ⟨b', hb', pre, hpre, h1, h2, h3⟩ := ih tail ht e he
          exact ⟨b', List.mem_cons_of_mem _ hb', pre, hpre, h1, h2, h3⟩

/-- The pass produces exactly one entry per non-empty suppressed detection
set across all batches. -/
theorem collectAll_ok_length (batches : List Batch)
    (out : List (UImg × List (List Rat) × String)) (hok : collectAll batches = .ok out) :
    out.length = (batches.map (fun b =>
      (b.preds.filter (fun pre => !(pre.length == 0))).length)).sum := by
  induction batches generalizing out with
  | nil =>
    simp only [collectAll] at hok
    cases hok
    simp
  | cons b rest ih =>
    simp only [collectAll] at hok
    cases hb : processBatch b with
    | error e0 => rw [hb] at hok; cases hok
    | ok entries =>
      rw [hb] at hok
      cases ht : collectAll rest with
      | error e0 => rw [ht] at hok; cases hok
      | ok tail =>
        rw [ht] at hok
        cases hok
        unfold processBatch at hb
        simp [collectBatch_ok_length _ _ _ _ _ _ _ hb, ih tail ht]

/-- C1: for every record set stored by the pseudo-labeling pass, paired
with its image, there is a surviving non-empty suppressed detection set
such that each appended record equals
`[0, class_id, center_x, center_y, width, height]` where the center fields
are `((x1+x2)/2)/w` and `((y1+y2)/2)/h`, the size fields are `(x2-x1)/w`
and `(y2-y1)/h`, the divisors `w`, `h` are the own shape of that image, and the
first column is 0. -/
theorem pseudo_label_record_fields (batches : List Batch)
    (d : semiDataset UImg (List (List Rat)) String Unit)
    (hok : pseudoLabelPass batches = .ok d)
    (hstack : ∀ b ∈ batches, ∀ im ∈ b.imgs, im.h = b.bh ∧ im.w = b.bw) :
    ∀ q ∈ d.imgs.zip d.target, ∃ b ∈ batches, ∃ pre ∈ b.preds, pre ≠ [] ∧
      q.2 = pre.map (fun det =>
        [0, det.cls, ((det.x1 + det.x2) / 2) / q.1.w, ((det.y1 + det.y2) / 2) / q.1.h,
         (det.x2 - det.x1) / q.1.w, (det.y2 - det.y1) / q.1.h]) := by
  unfold pseudoLabelPass at hok
  cases hc : collectAll batches with
  | error e0 => rw [hc] at hok; cases hok
  | ok entries =>
    rw [hc] at hok
    cases hok
    intro q hq
    simp only [mkSemiDataset] at hq
    rw [List.zip_map'] at hq
    obtain ⟨e, he, rfl⟩ := List.mem_map.mp hq
    obtain ⟨b, hb, pre, hpre, hne, hrows, him⟩ := collectAll_ok_mem batches entries hc e he
    obtain ⟨hh, hw⟩ := hstack b hb e.1 him
    refine ⟨b, hb, pre, hpre, hne, ?_⟩
    simp only []
    rw [hrows]
    apply List.map_congr_left
    intro det _
    simp [pseudoRow, xyxy2xywh, hh, hw]

/-- C10: every label-record set stored in the container produced by the
pseudo-labeling pass is non-empty, each of its rows has exactly 6 entries
with first entry 0, the three stored sequences are parallel, the container
holds exactly one entry per non-empty suppressed detection set, and its
length never exceeds the number of unlabeled images processed. -/
theorem pseudo_label_container_invariants (batches : List Batch)
    (d : semiDataset UImg (List (List Rat)) String Unit)
    (hok : pseudoLabelPass batches = .ok d) :
    (∀ t ∈ d.target, t ≠ [] ∧ ∀ row ∈ t, row.length = 6 ∧ row.head? = some 0)
    ∧ d.target.length = d.len
    ∧ d.path.length = d.len
    ∧ d.len = (batches.map (fun b =>
        (b.preds.filter (fun pre => !(pre.length == 0))).length)).sum
    ∧ d.len ≤ (batches.map (fun b => b.preds.length)).sum := by
  unfold pseudoLabelPass at hok
  cases hc : collectAll batches with
  | error e0 => rw [hc] at hok; cases hok
  | ok entries =>
    rw [hc] at hok
    cases hok
    have hlen : (mkSemiDataset (entries.map (fun e => e.1)) (entries.map (fun e => e.2.1))
        (entries.map (fun e => e.2.2)) : semiDataset UImg (List (List Rat)) String Unit).len
          = entries.length := by
      simp [mkSemiDataset, semiDataset.len]
    refine ⟨?_, ?_, ?_, ?_, ?_⟩
    · intro t ht
      simp only [mkSemiDataset] at ht
      obtain ⟨e, he, rfl⟩ := List.mem_map.mp ht
      obtain ⟨b, hb, pre, hpre, hne, hrows, _⟩ := collectAll_ok_mem batches entries hc e he
      constructor
      · rw [hrows]
        simpa using hne
      · intro row hrow
        rw [hrows] at hrow
        obtain ⟨det, _, rfl⟩ := List.mem_map.mp hrow
        exact ⟨by simp [pseudoRow], by simp [pseudoRow]⟩
    · simp [mkSemiDataset, semiDataset.len]
    · simp [mkSemiDataset, semiDataset.len]
    · rw [hlen]
      exact collectAll_ok_length batches entries hc
    · rw [hlen, collectAll_ok_length batches entries hc]
      refine List.sum_le_sum ?_
      intro b _
      exact List.length_filter_le _ _

/-- C1 witness: a single unlabeled batch of stacked shape height 2 and
width 4, holding one image of the same shape, whose suppressed detection
set contains the single box `[1, 0, 3, 2]` with confidence 1 and class 5;
the stored record is `[0, 5, 1/2, 1/2, 1/2, 1]`. -/
theorem pseudo_label_record_fields_witness :
    pseudoLabelPass [⟨2, 4, [⟨2, 4, 0⟩], ["u0"], [[⟨1, 0, 3, 2, 1, 5⟩]]⟩] =
      .ok (mkSemiDataset [⟨2, 4, 0⟩] [[[0, 5, 1/2, 1/2, 1/2, 1]]] ["u0"])
    ∧ (∀ b ∈ [(⟨2, 4, [⟨2, 4, 0⟩], ["u0"], [[⟨1, 0, 3, 2, 1, 5⟩]]⟩ : Batch)],
        ∀ im ∈ b.imgs, im.h = b.bh ∧ im.w = b.bw)
    ∧ (∀ q ∈ (mkSemiDataset [⟨2, 4, 0⟩] [[[0, 5, 1/2, 1/2, 1/2, 1]]] ["u0"] :
          semiDataset UImg (List (List Rat)) String Unit).imgs.zip
          (mkSemiDataset [⟨2, 4, 0⟩] [[[0, 5, 1/2, 1/2, 1/2, 1]]] ["u0"] :
            semiDataset UImg (List (List Rat)) String Unit).target,
        ∃ b ∈ [(⟨2, 4, [⟨2, 4, 0⟩], ["u0"], [[⟨1, 0, 3, 2, 1, 5⟩]]⟩ : Batch)],
          ∃ pre ∈ b.preds, pre ≠ [] ∧
            q.2 = pre.map (fun det =>
              [0, det.cls, ((det.x1 + det.x2) / 2) / q.1.w, ((det.y1 + det.y2) / 2) / q.1.h,
               (det.x2 - det.x1) / q.1.w, (det.y2 - det.y1) / q.1.h])) := by
  have h1 : pseudoLabelPass [⟨2, 4, [⟨2, 4, 0⟩], ["u0"], [[⟨1, 0, 3, 2, 1, 5⟩]]⟩] =
      .ok (mkSemiDataset [⟨2, 4, 0⟩] [[[0, 5, 1/2, 1/2, 1/2, 1]]] ["u0"]) := by
    norm_num [pseudoLabelPass, collectAll, processBatch, collectBatch, pyIndex,
      pseudoRow, xyxy2xywh, mkSemiDataset]
  have h2 : ∀ b ∈ [(⟨2, 4, [⟨2, 4, 0⟩], ["u0"], [[⟨1, 0, 3, 2, 1, 5⟩]]⟩ : Batch)],
      ∀ im ∈ b.imgs, im.h = b.bh ∧ im.w = b.bw := by
    intro b hb im him
    simp only [List.mem_singleton] at hb
    subst hb
    simp only [List.mem_singleton] at him
    subst him
    exact ⟨rfl, rfl⟩
  exact ⟨h1, h2, pseudo_label_record_fields _ _ h1 h2⟩

/-- C10 witness: one batch of two unlabeled images with stacked shape 1 by
1, the first with an empty suppressed detection set (contributing nothing)
and the second with one detection; the container has length 1. -/
theorem pseudo_label_container_invariants_witness :
    pseudoLabelPass [⟨1, 1, [⟨1, 1, 1⟩, ⟨1, 1, 2⟩], ["a", "b"], [[], [⟨0, 0, 1, 1, 1, 0⟩]]⟩] =
      .ok (mkSemiDataset [⟨1, 1, 2⟩] [[[0, 0, 1/2, 1/2, 1, 1]]] ["b"])
    ∧ ((∀ t ∈ (mkSemiDataset [⟨1, 1, 2⟩] [[[0, 0, 1/2, 1/2, 1, 1]]] ["b"] :
          semiDataset UImg (List (List Rat)) String Unit).target,
          t ≠ [] ∧ ∀ row ∈ t, row.length = 6 ∧ row.head? = some 0)
      ∧ (mkSemiDataset [⟨1, 1, 2⟩] [[[0, 0, 1/2, 1/2, 1, 1]]] ["b"] :
          semiDataset UImg (List (List Rat)) String Unit).target.length =
          (mkSemiDataset [⟨1, 1, 2⟩] [[[0, 0, 1/2, 1/2, 1, 1]]] ["b"] :
            semiDataset UImg (List (List Rat)) String Unit).len
      ∧ (mkSemiDataset [⟨1, 1, 2⟩] [[[0, 0, 1/2, 1/2, 1, 1]]] ["b"] :
          semiDataset UImg (List (List Rat)) String Unit).path.length =
          (mkSemiDataset [⟨1, 1, 2⟩] [[[0, 0, 1/2, 1/2, 1, 1]]] ["b"] :
            semiDataset UImg (List (List Rat)) String Unit).len
      ∧ (mkSemiDataset [⟨1, 1, 2⟩] [[[0, 0, 1/2, 1/2, 1, 1]]] ["b"] :
          semiDataset UImg (List (List Rat)) String Unit).len =
          ([(⟨1, 1, [⟨1, 1, 1⟩, ⟨1, 1, 2⟩], ["a", "b"],
              [[], [⟨0, 0, 1, 1, 1, 0⟩]]⟩ : Batch)].map (fun b =>
            (b.preds.filter (fun pre => !(pre.length == 0))).length)).sum
      ∧ (mkSemiDataset [⟨1, 1, 2⟩] [[[0, 0, 1/2, 1/2, 1, 1]]] ["b"] :
          semiDataset UImg (List (List Rat)) String Unit).len ≤
          ([(⟨1, 1, [⟨1, 1, 1⟩, ⟨1, 1, 2⟩], ["a", "b"],
              [[], [⟨0, 0, 1, 1, 1, 0⟩]]⟩ : Batch)].map (fun b => b.preds.length)).sum) := by
  have h1 : pseudoLabelPass
      [⟨1, 1, [⟨1, 1, 1⟩, ⟨1, 1, 2⟩], ["a", "b"], [[], [⟨0, 0, 1, 1, 1, 0⟩]]⟩] =
      .ok (mkSemiDataset [⟨1, 1, 2⟩] [[[0, 0, 1/2, 1/2, 1, 1]]] ["b"]) := by
    norm_num [pseudoLabelPass, collectAll, processBatch, collectBatch, pyIndex,
      pseudoRow, xyxy2xywh, mkSemiDataset]
  exact ⟨h1, pseudo_label_container_invariants _ _ h1⟩

/-- One step of the partition loop appends exactly the per-module
contributions to the three groups. -/
theorem modStep_eq (a : List (Option PTensor)) (b c : List PTensor) (v : PModule) :
    modStep (a, b, c) v = (a ++ bnW1 v, b ++ otherW1 v, c ++ biasP1 v) := by
  rcases v with ⟨w, bia, bn⟩
  dsimp only [modStep, bnW1, otherW1, biasP1]
  cases w with
  | none =>
    cases bia with
    | none => cases bn <;> simp
    | some b0 => cases bn <;> by_cases hb : b0.isParam <;> simp [hb]
  | some w0 =>
    cases bia with
    | none => cases bn <;> by_cases hw : w0.isParam <;> simp [hw]
    | some b0 =>
      cases bn <;> by_cases hw : w0.isParam <;> by_cases hb : b0.isParam <;> simp [hw, hb]

/-- Folding the partition loop from any accumulated state appends the
per-module contributions of the remaining modules. -/
theorem paramGroups_foldl (m : List PModule) (a : List (Option PTensor))
    (b c : List PTensor) :
    m.foldl modStep (a, b, c) = (a ++ bnWeights m, b ++ otherWeights m, c ++ biasParams m) := by
  induction m generalizing a b c with
  | nil => simp [bnWeights, otherWeights, biasParams]
  | cons v r ih =>
    simp only [List.foldl_cons, modStep_eq]
    rw [ih]
    simp [bnWeights, otherWeights, biasParams, List.append_assoc]

/-- The three optimizer groups are exactly the BatchNorm2d weights, the
other Parameter weights, and the Parameter biases, in module order. -/
theorem paramGroups_eq (m : List PModule) :
    paramGroups m = (bnWeights m, otherWeights m, biasParams m) := by
  unfold paramGroups
  rw [paramGroups_foldl]
  simp

/-- Membership in the accumulated bias group. -/
theorem mem_biasParams (m : List PModule) (p : PTensor) :
    p ∈ biasParams m ↔ ∃ v ∈ m, v.bias = some p ∧ p.isParam = true := by
  unfold biasParams
  simp only [List.mem_flatten, List.mem_map]
  constructor
  · rintro ⟨l, ⟨v, hv, rfl⟩, hp⟩
    refine ⟨v, hv, ?_⟩
    unfold biasP1 at hp
    cases hb : v.bias with
    | none => rw [hb] at hp; simp at hp
    | some b0 =>
      rw [hb] at hp
      by_cases hbp : b0.isParam
      · simp [hbp] at hp
        subst hp
        exact ⟨rfl, hbp⟩
      · simp [hbp] at hp
  · rintro ⟨v, hv, hb, hp⟩
    exact ⟨biasP1 v, ⟨v, hv, rfl⟩, by simp [biasP1, hb, hp]⟩

/-- Membership in the accumulated BatchNorm2d weight group. -/
theorem mem_bnWeights (m : List PModule) (q : Option PTensor) :
    q ∈ bnWeights m ↔ ∃ v ∈ m, v.isBatchNorm2d = true ∧ v.weight = q := by
  unfold bnWeights
  simp only [List.mem_flatten, List.mem_map]
  constructor
  · rintro ⟨l, ⟨v, hv, rfl⟩, hq⟩
    unfold bnW1 at hq
    cases hbn : v.isBatchNorm2d with
    | false => rw [hbn] at hq; simp at hq
    | true =>
      rw [hbn] at hq
      simp at hq
      exact ⟨v, hv, hbn, hq.symm⟩
  · rintro ⟨v, hv, hbn, hq⟩
    exact ⟨bnW1 v, ⟨v, hv, rfl⟩, by simp [bnW1, hbn, hq]⟩

/-- Membership in the accumulated non-BatchNorm2d weight group. -/
theorem mem_otherWeights (m : List PModule) (p : PTensor) :
    p ∈ otherWeights m ↔
      ∃ v ∈ m, v.isBatchNorm2d = false ∧ v.weight = some p ∧ p.isParam = true := by
  unfold otherWeights
  simp only [List.mem_flatten, List.mem_map]
  constructor
  · rintro ⟨l, ⟨v, hv, rfl⟩, hp⟩
    unfold otherW1 at hp
    cases hbn : v.isBatchNorm2d with
    | true => rw [hbn] at hp; simp at hp
    | false =>
      rw [hbn] at hp
      cases hw : v.weight with
      | none => rw [hw] at hp; simp at hp
      | some w0 =>
        rw [hw] at hp
        by_cases hwp : w0.isParam
        · simp [hwp] at hp
          subst hp
          exact ⟨v, hv, hbn, hw, hwp⟩
        · simp [hwp] at hp
  · rintro ⟨v, hv, hbn, hw, hp⟩
    exact ⟨otherW1 v, ⟨v, hv, rfl⟩, by simp [otherW1, hbn, hw, hp]⟩

/-- Under affine batch normalization (every BatchNorm2d weight is a
Parameter) the three groups together hold, as a multiset, exactly the
trainable parameters of the model. -/
theorem groups_cover (m : List PModule) :
    (∀ v ∈ m, v.isBatchNorm2d = true → isParamOpt v.weight = true) →
    (((bnWeights m).reduceOption ++ otherWeights m ++ biasParams m : List PTensor) :
        Multiset PTensor) = ((modelParams m : List PTensor) : Multiset PTensor) := by
  induction m with
  | nil =>
    intro _
    simp [bnWeights, otherWeights, biasParams, modelParams]
  | cons v r ih =>
    intro hbn
    have hv : (bnW1 v).reduceOption ++ otherW1 v = wParams1 v := by
      cases hb : v.isBatchNorm2d with
      | false => simp [bnW1, otherW1, wParams1, hb]
      | true =>
        have hp := hbn v (List.mem_cons_self _ _) hb
        cases hw : v.weight with
        | none => rw [hw] at hp; simp [isParamOpt] at hp
        | some w0 =>
          rw [hw] at hp
          simp only [isParamOpt] at hp
          simp [bnW1, otherW1, wParams1, hb, hw, hp]
    have ihr := ih (fun v2 hv2 hb2 => hbn v2 (List.mem_cons_of_mem _ hv2) hb2)
    have h1 : bnWeights (v :: r) = bnW1 v ++ bnWeights r := by simp [bnWeights]
    have h2 : otherWeights (v :: r) = otherW1 v ++ otherWeights r := by simp [otherWeights]
    have h3 : biasParams (v :: r) = biasP1 v ++ biasParams r := by simp [biasParams]
    have h4 : modelParams (v :: r) = (wParams1 v ++ biasP1 v) ++ modelParams r := by
      simp [modelParams]
    rw [h1, h2, h3, h4, List.reduceOption_append]
    have hv' := congrArg (fun l => ((l : List PTensor) : Multiset PTensor)) hv
    simp only [← Multiset.coe_add] at hv' ihr ⊢
    rw [← ihr, ← hv']
    abel

/-- C7: on every model whose BatchNorm2d layers are affine and whose
parameter tensors are pairwise distinct, the three optimizer groups are a
strict 3-way disjoint cover of the trainable parameters: group 2 holds
exactly the bias parameters, group 0 exactly the normalization-layer
weights, group 1 exactly the remaining weight parameters, and their
concatenation is a duplicate-free permutation of the full trainable
parameter set. -/
theorem optimizer_param_partition (m : List PModule)
    (hbn : ∀ v ∈ m, v.isBatchNorm2d = true → isParamOpt v.weight = true)
    (hids : ((modelParams m).map PTensor.id).Nodup) :
    (∀ p : PTensor, p ∈ (paramGroups m).2.2 ↔ ∃ v ∈ m, v.bias = some p ∧ p.isParam = true)
    ∧ (∀ p : PTensor, p ∈ (paramGroups m).1.reduceOption ↔
        ∃ v ∈ m, v.isBatchNorm2d = true ∧ v.weight = some p)
    ∧ (∀ p : PTensor, p ∈ (paramGroups m).2.1 ↔
        ∃ v ∈ m, v.isBatchNorm2d = false ∧ v.weight = some p ∧ p.isParam = true)
    ∧ ((paramGroups m).1.reduceOption ++ (paramGroups m).2.1 ++ (paramGroups m).2.2).Perm
        (modelParams m)
    ∧ (((paramGroups m).1.reduceOption ++ (paramGroups m).2.1 ++ (paramGroups m).2.2).map
        PTensor.id).Nodup := by
  have hg := paramGroups_eq m
  have hperm : ((bnWeights m).reduceOption ++ otherWeights m ++ biasParams m).Perm
      (modelParams m) := Multiset.coe_eq_coe.mp (groups_cover m hbn)
  refine ⟨?_, ?_, ?_, ?_, ?_⟩
  · intro p
    rw [hg]
    exact mem_biasParams m p
  · intro p
    rw [hg]
    rw [List.reduceOption_mem_iff]
    exact mem_bnWeights m (some p)
  · intro p
    rw [hg]
    exact mem_otherWeights m p
  · rw [hg]
    exact hperm
  · rw [hg]
    exact (List.Perm.nodup_iff (hperm.map PTensor.id)).mpr hids

/-- C7 witness: a model of four modules — a bias-free convolution, an
affine BatchNorm2d, a parameter-free container, and a convolution with
bias — with pairwise distinct parameter tensors. -/
theorem optimizer_param_partition_witness :
    (∀ v ∈ [(⟨some ⟨1, true⟩, none, false⟩ : PModule), ⟨some ⟨2, true⟩, some ⟨3, true⟩, true⟩,
        ⟨none, none, false⟩, ⟨some ⟨4, true⟩, some ⟨5, true⟩, false⟩],
      v.isBatchNorm2d = true → isParamOpt v.weight = true)
    ∧ ((modelParams [(⟨some ⟨1, true⟩, none, false⟩ : PModule),
        ⟨some ⟨2, true⟩, some ⟨3, true⟩, true⟩, ⟨none, none, false⟩,
        ⟨some ⟨4, true⟩, some ⟨5, true⟩, false⟩]).map PTensor.id).Nodup
    ∧ ((∀ p : PTensor,
          p ∈ (paramGroups [(⟨some ⟨1, true⟩, none, false⟩ : PModule),
              ⟨some ⟨2, true⟩, some ⟨3, true⟩, true⟩, ⟨none, none, false⟩,
              ⟨some ⟨4, true⟩, some ⟨5, true⟩, false⟩]).2.2 ↔
            ∃ v ∈ [(⟨some ⟨1, true⟩, none, false⟩ : PModule),
              ⟨some ⟨2, true⟩, some ⟨3, true⟩, true⟩, ⟨none, none, false⟩,
              ⟨some ⟨4, true⟩, some ⟨5, true⟩, false⟩], v.bias = some p ∧ p.isParam = true)
      ∧ (∀ p : PTensor,
          p ∈ (paramGroups [(⟨some ⟨1, true⟩, none, false⟩ : PModule),
              ⟨some ⟨2, true⟩, some ⟨3, true⟩, true⟩, ⟨none, none, false⟩,
              ⟨some ⟨4, true⟩, some ⟨5, true⟩, false⟩]).1.reduceOption ↔
            ∃ v ∈ [(⟨some ⟨1, true⟩, none, false⟩ : PModule),
              ⟨some ⟨2, true⟩, some ⟨3, true⟩, true⟩, ⟨none, none, false⟩,
              ⟨some ⟨4, true⟩, some ⟨5, true⟩, false⟩],
              v.isBatchNorm2d = true ∧ v.weight = some p)
      ∧ (∀ p : PTensor,
          p ∈ (paramGroups [(⟨some ⟨1, true⟩, none, false⟩ : PModule),
              ⟨some ⟨2, true⟩, some ⟨3, true⟩, true⟩, ⟨none, none, false⟩,
              ⟨some ⟨4, true⟩, some ⟨5, true⟩, false⟩]).2.1 ↔
            ∃ v ∈ [(⟨some ⟨1, true⟩, none, false⟩ : PModule),
              ⟨some ⟨2, true⟩, some ⟨3, true⟩, true⟩, ⟨none, none, false⟩,
              ⟨some ⟨4, true⟩, some ⟨5, true⟩, false⟩],
              v.isBatchNorm2d = false ∧ v.weight = some p ∧ p.isParam = true)
      ∧ ((paramGroups [(⟨some ⟨1, true⟩, none, false⟩ : PModule),
            ⟨some ⟨2, true⟩, some ⟨3, true⟩, true⟩, ⟨none, none, false⟩,
            ⟨some ⟨4, true⟩, some ⟨5, true⟩, false⟩]).1.reduceOption ++
          (paramGroups [(⟨some ⟨1, true⟩, none, false⟩ : PModule),
            ⟨some ⟨2, true⟩, some ⟨3, true⟩, true⟩, ⟨none, none, false⟩,
            ⟨some ⟨4, true⟩, some ⟨5, true⟩, false⟩]).2.1 ++
          (paramGroups [(⟨some ⟨1, true⟩, none, false⟩ : PModule),
            ⟨some ⟨2, true⟩, some ⟨3, true⟩, true⟩, ⟨none, none, false⟩,
            ⟨some ⟨4, true⟩, some ⟨5, true⟩, false⟩]).2.2).Perm
          (modelParams [(⟨some ⟨1, true⟩, none, false⟩ : PModule),
            ⟨some ⟨2, true⟩, some ⟨3, true⟩, true⟩, ⟨none, none, false⟩,
            ⟨some ⟨4, true⟩, some ⟨5, true⟩, false⟩])
      ∧ (((paramGroups [(⟨some ⟨1, true⟩, none, false⟩ : PModule),
            ⟨some ⟨2, true⟩, some ⟨3, true⟩, true⟩, ⟨none, none, false⟩,
            ⟨some ⟨4, true⟩, some ⟨5, true⟩, false⟩]).1.reduceOption ++
          (paramGroups [(⟨some ⟨1, true⟩, none, false⟩ : PModule),
            ⟨some ⟨2, true⟩, some ⟨3, true⟩, true⟩, ⟨none, none, false⟩,
            ⟨some ⟨4, true⟩, some ⟨5, true⟩, false⟩]).2.1 ++
          (paramGroups [(⟨some ⟨1, true⟩, none, false⟩ : PModule),
            ⟨some ⟨2, true⟩, some ⟨3, true⟩, true⟩, ⟨none, none, false⟩,
            ⟨some ⟨4, true⟩, some ⟨5, true⟩, false⟩]).2.2).map PTensor.id).Nodup) := by
  refine ⟨by decide, by decide, ?_⟩
  exact optimizer_param_partition
    [(⟨some ⟨1, true⟩, none, false⟩ : PModule), ⟨some ⟨2, true⟩, some ⟨3, true⟩, true⟩,
      ⟨none, none, false⟩, ⟨some ⟨4, true⟩, some ⟨5, true⟩, false⟩] (by decide) (by decide)
